import Mathlib

/-!
Verification of the defect-management workflow component.

This file gives a shallow embedding of the status-workflow code of the
repository (the Redux `Defect` model, the mock REST adapter
`defectsAPI.changeStatus` / `defectsAPI.assign` in
`src/frontend/src/services/api.ts`, the transition tables
`getAvailableTransitions` in `DefectWorkflow.tsx` and
`getValidNextStatuses` in the status-change dialog, the role helpers of
`RoleGuard.tsx`, and the overdue indicator of `DefectWorkflow.tsx`),
and proves or refutes the specification's claims about them.

Conventions of the embedding:
* TypeScript string-literal unions (`status`, roles) are embedded as `String`.
* Optional fields (`assignee?`, `due_date?`, ...) are embedded as `Option`.
* JavaScript `Date` values are abstracted: a call to `new Date(s).getTime()`
  is an application of an abstract `getTime : String → Int` parameter
  (milliseconds), `new Date().getTime()` is an explicit `nowMs : Int`
  parameter, and `new Date().toISOString()` is an explicit `nowIso : String`
  parameter.
* The mutable module array `MOCK_DEFECTS` is passed and returned explicitly:
  every API operation takes the stored list and returns the possibly updated
  list together with an `Except` result.  A thrown `new Error(msg)` is
  embedded as `Except.error msg` with the literal message string.
-/

namespace DefectSystem

/-- Embedded `{id, first_name, last_name}` sub-record used for `author`,
`assignee` and the engineer directory entries. -/
structure UserRef where
  id : Nat
  first_name : String
  last_name : String
deriving DecidableEq, Repr

/-- Embedded `{id, name}` project reference of the `Defect` interface. -/
structure ProjectRef where
  id : Nat
  name : String
deriving DecidableEq, Repr

/-- Embedded `{id, name, color}` category reference of the `Defect` interface. -/
structure CategoryRef where
  id : Nat
  name : String
  color : String
deriving DecidableEq, Repr

/-- Embedded `{id, file_url, filename}` image reference of the `Defect` interface. -/
structure ImageRef where
  id : Nat
  file_url : String
  filename : String
deriving DecidableEq, Repr

/-- Embedding of the `Defect` interface of
`src/frontend/src/store/slices/defectsSlice.ts` (lines 9-50), field for field.
Note that the interface has no version counter field. -/
structure Defect where
  id : Nat
  defect_number : String
  title : String
  description : String
  status : String
  priority : String
  severity : String
  project : ProjectRef
  category : CategoryRef
  author : UserRef
  assignee : Option UserRef
  location : String
  floor : Option String
  room : Option String
  due_date : Option String
  is_overdue : Bool
  days_remaining : Option Int
  main_image : Option ImageRef
  comments_count : Nat
  created_at : String
  updated_at : String
deriving DecidableEq, Repr

/-- Embedded entry of the `MOCK_ENGINEERS` directory of `api.ts`. -/
structure Engineer where
  id : Nat
  first_name : String
  last_name : String
  specialization : String
deriving DecidableEq, Repr

/-- The `MOCK_ENGINEERS` constant of `api.ts` (lines 269-276). -/
def mockEngineers : List Engineer :=
  [ ⟨2, "Петр", "Инженеров", "Конструкции"⟩,
    ⟨3, "Мария", "Электрикова", "Электрика"⟩,
    ⟨4, "Иван", "Сантехников", "Сантехника"⟩,
    ⟨5, "Сергей", "Отделочников", "Отделка"⟩,
    ⟨6, "Алексей", "Вентиляционщик", "Вентиляция"⟩,
    ⟨7, "Николай", "Пожарников", "Пожарная безопасность"⟩ ]

/-- Entry 1 of the `MOCK_DEFECTS` constant of `api.ts`. -/
def defect1 : Defect where
  id := 1
  defect_number := "DEF-2024-001"
  title := "Трещины в бетонной стене на 5-м этаже"
  description := "Обнаружены вертикальные трещины в несущей стене. Требуется немедленное вмешательство для оценки структурной целостности."
  status := "new"
  priority := "high"
  severity := "major"
  project := ⟨1, "Жилой комплекс \"Север\""⟩
  category := ⟨1, "Структурные дефекты", "#f44336"⟩
  author := ⟨1, "Анна", "Менеджерова"⟩
  assignee := some ⟨2, "Петр", "Инженеров"⟩
  location := "Здание A, секция 1"
  floor := some "5"
  room := some "Квартира 501"
  due_date := some "2024-09-15"
  is_overdue := false
  days_remaining := some 7
  main_image := some ⟨1, "/images/defects/crack-wall-1.jpg", "crack-wall-1.jpg"⟩
  comments_count := 3
  created_at := "2024-09-01T10:00:00Z"
  updated_at := "2024-09-05T14:30:00Z"

/-- Entry 2 of the `MOCK_DEFECTS` constant of `api.ts`. -/
def defect2 : Defect where
  id := 2
  defect_number := "DEF-2024-002"
  title := "Неисправность электрической розетки"
  description := "Розетка в спальне искрит при подключении приборов. Потенциальная угроза пожара."
  status := "in_progress"
  priority := "critical"
  severity := "critical"
  project := ⟨1, "Жилой комплекс \"Север\""⟩
  category := ⟨2, "Электрические проблемы", "#ff9800"⟩
  author := ⟨2, "Петр", "Инженеров"⟩
  assignee := some ⟨3, "Мария", "Электрикова"⟩
  location := "Здание B, секция 2"
  floor := some "3"
  room := some "Квартира 302"
  due_date := some "2024-09-10"
  is_overdue := true
  days_remaining := some (-2)
  main_image := some ⟨2, "/images/defects/electrical-outlet.jpg", "electrical-outlet.jpg"⟩
  comments_count := 8
  created_at := "2024-08-28T09:15:00Z"
  updated_at := "2024-09-08T11:20:00Z"

/-- Entry 3 of the `MOCK_DEFECTS` constant of `api.ts`. -/
def defect3 : Defect where
  id := 3
  defect_number := "DEF-2024-003"
  title := "Протечка в санузле"
  description := "Обнаружена протечка воды в районе стояка холодной воды. Повреждение может распространиться на нижние этажи."
  status := "review"
  priority := "high"
  severity := "major"
  project := ⟨1, "Жилой комплекс \"Север\""⟩
  category := ⟨3, "Сантехнические дефекты", "#2196f3"⟩
  author := ⟨1, "Анна", "Менеджерова"⟩
  assignee := some ⟨4, "Иван", "Сантехников"⟩
  location := "Здание A, секция 3"
  floor := some "7"
  room := some "Санузел квартиры 705"
  due_date := some "2024-09-12"
  is_overdue := false
  days_remaining := some 4
  main_image := none
  comments_count := 5
  created_at := "2024-09-02T16:45:00Z"
  updated_at := "2024-09-07T13:10:00Z"

/-- Entry 4 of the `MOCK_DEFECTS` constant of `api.ts`. -/
def defect4 : Defect where
  id := 4
  defect_number := "DEF-2024-004"
  title := "Неровность напольного покрытия"
  description := "Ламинат уложен неровно, образуются зазоры и скрипы при ходьбе."
  status := "closed"
  priority := "medium"
  severity := "minor"
  project := ⟨1, "Жилой комплекс \"Север\""⟩
  category := ⟨4, "Отделочные работы", "#4caf50"⟩
  author := ⟨2, "Петр", "Инженеров"⟩
  assignee := some ⟨5, "Сергей", "Отделочников"⟩
  location := "Здание C, секция 1"
  floor := some "2"
  room := some "Гостиная квартиры 201"
  due_date := some "2024-08-30"
  is_overdue := false
  days_remaining := none
  main_image := some ⟨3, "/images/defects/floor-defect.jpg", "floor-defect.jpg"⟩
  comments_count := 2
  created_at := "2024-08-20T11:30:00Z"
  updated_at := "2024-08-30T17:45:00Z"

/-- Entry 5 of the `MOCK_DEFECTS` constant of `api.ts`. -/
def defect5 : Defect where
  id := 5
  defect_number := "DEF-2024-005"
  title := "Отсутствие ограждения на балконе"
  description := "Балкон на 8-м этаже не имеет установленного ограждения, что создает угрозу безопасности."
  status := "new"
  priority := "critical"
  severity := "blocking"
  project := ⟨1, "Жилой комплекс \"Север\""⟩
  category := ⟨5, "Безопасность", "#e91e63"⟩
  author := ⟨3, "Мария", "Наблюдательева"⟩
  assignee := none
  location := "Здание D, секция 1"
  floor := some "8"
  room := some "Балкон квартиры 801"
  due_date := some "2024-09-09"
  is_overdue := true
  days_remaining := some (-1)
  main_image := none
  comments_count := 1
  created_at := "2024-09-07T08:20:00Z"
  updated_at := "2024-09-07T08:20:00Z"

/-- Entry 6 of the `MOCK_DEFECTS` constant of `api.ts`. -/
def defect6 : Defect where
  id := 6
  defect_number := "DEF-2024-006"
  title := "Неисправность вентиляционной системы"
  description := "Вентиляционные решетки забиты строительным мусором, нарушена циркуляция воздуха."
  status := "in_progress"
  priority := "medium"
  severity := "major"
  project := ⟨2, "Торговый центр \"Восток\""⟩
  category := ⟨6, "Вентиляция и кондиционирование", "#607d8b"⟩
  author := ⟨2, "Петр", "Инженеров"⟩
  assignee := some ⟨6, "Алексей", "Вентиляционщик"⟩
  location := "Основное здание"
  floor := some "2"
  room := some "Торговый зал секция A"
  due_date := some "2024-09-20"
  is_overdue := false
  days_remaining := some 12
  main_image := none
  comments_count := 4
  created_at := "2024-09-03T14:00:00Z"
  updated_at := "2024-09-06T16:30:00Z"

/-- Entry 7 of the `MOCK_DEFECTS` constant of `api.ts`. -/
def defect7 : Defect where
  id := 7
  defect_number := "DEF-2024-007"
  title := "Царапины на стеклянных перегородках"
  description := "Множественные царапины на стеклянных перегородках в офисной зоне."
  status := "cancelled"
  priority := "low"
  severity := "cosmetic"
  project := ⟨3, "Офисное здание \"Центр\""⟩
  category := ⟨4, "Отделочные работы", "#4caf50"⟩
  author := ⟨1, "Анна", "Менеджерова"⟩
  assignee := none
  location := "Офисный блок A"
  floor := some "5"
  room := some "Переговорная 502"
  due_date := none
  is_overdue := false
  days_remaining := none
  main_image := none
  comments_count := 6
  created_at := "2024-08-15T12:00:00Z"
  updated_at := "2024-08-25T10:15:00Z"

/-- Entry 8 of the `MOCK_DEFECTS` constant of `api.ts`. -/
def defect8 : Defect where
  id := 8
  defect_number := "DEF-2024-008"
  title := "Неисправность системы пожарной сигнализации"
  description := "Датчики дыма не реагируют на тестирование, система требует полной диагностики."
  status := "new"
  priority := "critical"
  severity := "blocking"
  project := ⟨2, "Торговый центр \"Восток\""⟩
  category := ⟨5, "Безопасность", "#e91e63"⟩
  author := ⟨3, "Мария", "Наблюдательева"⟩
  assignee := some ⟨7, "Николай", "Пожарников"⟩
  location := "Весь комплекс"
  floor := some "Все этажи"
  room := none
  due_date := some "2024-09-11"
  is_overdue := false
  days_remaining := some 3
  main_image := none
  comments_count := 2
  created_at := "2024-09-05T09:30:00Z"
  updated_at := "2024-09-05T09:30:00Z"

/-- The `MOCK_DEFECTS` constant of `api.ts` (lines 70-260). -/
def mockDefects : List Defect :=
  [defect1, defect2, defect3, defect4, defect5, defect6, defect7, defect8]

/-! ### Transition tables -/

/-- The `baseTransitions` lookup object inside `getAvailableTransitions` of
`DefectWorkflow.tsx` (lines 101-107); an unknown key yields `[]`
(`baseTransitions[currentStatus] || []`). -/
def baseTransitions (currentStatus : String) : List String :=
  if currentStatus = "new" then ["in_progress", "cancelled"]
  else if currentStatus = "in_progress" then ["review", "cancelled"]
  else if currentStatus = "review" then ["closed", "in_progress", "cancelled"]
  else if currentStatus = "closed" then ["in_progress"]
  else if currentStatus = "cancelled" then ["new"]
  else []

/-- `getAvailableTransitions(currentStatus, userRole?)` of `DefectWorkflow.tsx`
(lines 100-126).  The optional `userRole` string is embedded as
`Option String`; any role other than `observer` and `engineer` (including an
absent one) keeps the base transitions. -/
def getAvailableTransitions (currentStatus : String) (userRole : Option String) :
    List String :=
  let transitions := baseTransitions currentStatus
  if userRole = some "observer" then []
  else if userRole = some "engineer" then
    if currentStatus = "new" then ["in_progress"]
    else if currentStatus = "in_progress" then ["review"]
    else []
  else transitions

/-- `getValidNextStatuses(currentStatus)` of the `StatusChangeDialog` component
(`src/unnamed/part_010`, lines 542-552).  It is role-independent, its `review`
row lacks `cancelled`, and its `closed` row is empty. -/
def getValidNextStatuses (currentStatus : String) : List String :=
  if currentStatus = "new" then ["in_progress", "cancelled"]
  else if currentStatus = "in_progress" then ["review", "cancelled"]
  else if currentStatus = "review" then ["closed", "in_progress"]
  else if currentStatus = "closed" then []
  else if currentStatus = "cancelled" then ["new"]
  else []

/-- Specification-side structural transition table, written from the §4.1 table
of the spec (role-independent upper bound).  This is the comparison target for
the code-side tables, not a translation of any source function. -/
def specStructural (fromStatus toStatus : String) : Bool :=
  (fromStatus = "new" ∧ (toStatus = "in_progress" ∨ toStatus = "cancelled")) ∨
  (fromStatus = "in_progress" ∧ (toStatus = "review" ∨ toStatus = "cancelled")) ∨
  (fromStatus = "review" ∧ (toStatus = "closed" ∨ toStatus = "in_progress" ∨ toStatus = "cancelled")) ∨
  (fromStatus = "closed" ∧ toStatus = "in_progress") ∨
  (fromStatus = "cancelled" ∧ toStatus = "new")

/-- Specification-side `isAllowed(from, to, role)`, written from the §4.1 role
overlay of the spec: manager gets every structurally allowed transition,
engineer only `new → in_progress` and `in_progress → review`, observer none. -/
def specIsAllowed (fromStatus toStatus role : String) : Bool :=
  specStructural fromStatus toStatus ∧
    (role = "manager" ∨
     (role = "engineer" ∧
       ((fromStatus = "new" ∧ toStatus = "in_progress") ∨
        (fromStatus = "in_progress" ∧ toStatus = "review"))))

/-- The five workflow statuses (`validStatuses` of `changeStatus` in `api.ts`,
line 581, identical to the spec's status set). -/
def validStatuses : List String :=
  ["new", "in_progress", "review", "closed", "cancelled"]

/-- The three user roles of `RoleGuard.tsx` (`UserRole`). -/
def allRoles : List String := ["manager", "engineer", "observer"]

/-! ### Role helpers of `RoleGuard.tsx` -/

/-- `hasRole(roles)` of the `usePermissions` hook (`RoleGuard.tsx`, lines
37-40): false when no user is logged in, otherwise membership of the user's
role. -/
def hasRole (user : Option String) (roles : List String) : Bool :=
  match user with
  | none => false
  | some r => roles.contains r

/-- `canAssign()` of the `usePermissions` hook (`RoleGuard.tsx`, line 48):
`hasRole(['manager'])`. -/
def canAssign (user : Option String) : Bool :=
  hasRole user ["manager"]

/-- `canChangeStatus()` of the `usePermissions` hook (`RoleGuard.tsx`, line
49): `hasRole(['manager', 'engineer'])`. -/
def canChangeStatus (user : Option String) : Bool :=
  hasRole user ["manager", "engineer"]

/-! ### The mock API operations of `api.ts` -/

/-- Replace the first element satisfying `p` by its image under `f`, returning
the new list together with the replaced element's image; `none` when no
element matches.  This models the `MOCK_DEFECTS.findIndex(...)` lookup
followed by the in-place `MOCK_DEFECTS[index] = { ...MOCK_DEFECTS[index], ... }`
assignment and the `return MOCK_DEFECTS[index]` of the mock API. -/
def updateFirst (p : Defect → Bool) (f : Defect → Defect) :
    List Defect → Option (List Defect × Defect)
  | [] => none
  | d :: rest =>
    if p d then some (f d :: rest, f d)
    else
      match updateFirst p f rest with
      | none => none
      | some (st, u) => some (d :: st, u)

/-- `defectsAPI.changeStatus(id, status, comment?)` of `api.ts` (lines
572-593).  The stored list is passed and returned explicitly; `now` stands for
`new Date().toISOString()`.  The function looks the defect up by id (throwing
the not-found message when absent), checks only that the requested status
string is one of the five valid statuses (throwing the invalid-status message
otherwise), and then overwrites `status` and `updated_at` — there is no
check against the current status, no role input, no version input, and no
history output.  The `comment` parameter of the source is unused there and
omitted here. -/
def changeStatus (state : List Defect) (id : Nat) (status : String)
    (now : String) : List Defect × Except String Defect :=
  match updateFirst (fun d => d.id == id)
      (fun d => { d with status := status, updated_at := now }) state with
  | none => (state, .error "Дефект не найден")
  | some (st, u) =>
    if validStatuses.contains status then (st, .ok u)
    else (state, .error "Недопустимый статус")

/-- `Math.ceil(a / b)` on integers for a positive divisor `b`, used by the
mock `assign` for `Math.ceil((dueDateTime - currentTime) / (1000*60*60*24))`:
the ceiling of the real quotient, computed as `-((-a).fdiv b)`. -/
def jsCeilDiv (a b : Int) : Int :=
  -(Int.fdiv (-a) b)

/-- Milliseconds per day, `1000 * 60 * 60 * 24`. -/
def msPerDay : Int := 86400000

/-- The `days_remaining` / `is_overdue` derivation of `assign` (`api.ts`,
lines 608-617): with no due date (or, by JavaScript truthiness, an empty
string) the pair stays `(undefined, false)`; otherwise
`days_remaining = Math.ceil((dueDateTime - currentTime) / msPerDay)` and
`is_overdue = days_remaining < 0`. -/
def dueDerivation (getTime : String → Int) (nowMs : Int) :
    Option String → Option Int × Bool
  | none => (none, false)
  | some s =>
    if s = "" then (none, false)
    else
      let r := jsCeilDiv (getTime s - nowMs) msPerDay
      (some r, decide (r < 0))

/-- The update object
`{ ...MOCK_DEFECTS[index], assignee: {...}, due_date, days_remaining, is_overdue, updated_at }`
written back by `assign` (`api.ts`, lines 619-630), with the derived pair
`dio = (days_remaining, is_overdue)` passed in. -/
def assignUpdate (a : Engineer) (due_date : Option String)
    (dio : Option Int × Bool) (nowIso : String) (d : Defect) : Defect :=
  { d with
    assignee := some ⟨a.id, a.first_name, a.last_name⟩,
    due_date := due_date,
    days_remaining := dio.1,
    is_overdue := dio.2,
    updated_at := nowIso }

/-- `defectsAPI.assign(id, assigneeId, due_date?, comment?)` of `api.ts`
(lines 595-633).  `getTime` abstracts `new Date(s).getTime()`, `nowMs`
abstracts `new Date().getTime()` and `nowIso` abstracts
`new Date().toISOString()`.  The function looks the defect up by id, resolves
the assignee in `MOCK_ENGINEERS` (throwing the assignee-not-found message when
unresolved), derives `days_remaining` / `is_overdue` through `dueDerivation`,
and overwrites `assignee`, `due_date`, `days_remaining`, `is_overdue` and
`updated_at` through `assignUpdate`.  There is no role input and no version
input.  The `comment` parameter of the source is unused there and omitted
here. -/
def assign (getTime : String → Int) (nowMs : Int) (nowIso : String)
    (state : List Defect) (id assigneeId : Nat) (due_date : Option String) :
    List Defect × Except String Defect :=
  if state.all (fun d => !(d.id == id)) then
    (state, .error "Дефект не найден")
  else
    match mockEngineers.find? (fun e => e.id == assigneeId) with
    | none => (state, .error "Исполнитель не найден")
    | some a =>
      match updateFirst (fun d => d.id == id)
          (assignUpdate a due_date (dueDerivation getTime nowMs due_date) nowIso)
          state with
      | none => (state, .error "Дефект не найден")
      | some (st, u) => (st, .ok u)

/-! ### UI-side pieces -/

/-- The overdue indicator of `DefectWorkflow.tsx` (line 195):
`defect.due_date && new Date(defect.due_date) < new Date()` — JavaScript
truthiness of the optional string, then a strict date comparison. -/
def isOverdueView (getTime : String → Int) (nowMs : Int) (defect : Defect) :
    Bool :=
  match defect.due_date with
  | none => false
  | some dd => if dd = "" then false else decide (getTime dd < nowMs)

/-- Observable outcome of `StatusChangeDialog.handleSubmit`
(`src/unnamed/part_010`, lines 557-583). -/
inductive SubmitAction where
  /-- The early `return` when no defect or no selected status is present. -/
  | none
  /-- The `onError(msg); return` branch. -/
  | reject (msg : String)
  /-- The `dispatch(changeDefectStatus({id, status, comment}))` branch. -/
  | dispatchChange (id : Nat) (status : String) (comment : Option String)
deriving DecidableEq, Repr

/-- `StatusChangeDialog.handleSubmit` of `src/unnamed/part_010` (lines
557-583), up to the dispatch: return early when `!defect || !selectedStatus`;
reject with the pick-a-new-status message when the selected status equals the
defect's current status; otherwise dispatch the change with the trimmed
comment (`comment.trim() || undefined`). -/
def handleSubmit (defect : Option Defect) (selectedStatus : String)
    (comment : String) : SubmitAction :=
  match defect with
  | Option.none => SubmitAction.none
  | some d =>
    if selectedStatus = "" then SubmitAction.none
    else if selectedStatus = d.status then
      SubmitAction.reject "Выберите новый статус"
    else
      SubmitAction.dispatchChange d.id selectedStatus
        (if comment.trim = "" then Option.none else some comment.trim)

/-! ### Concrete records used when instantiating the theorems -/

/-- Defect 1 as returned by `changeStatus(1, "in_progress")` at time `"T"`. -/
def updatedDefect1 : Defect :=
  { defect1 with status := "in_progress", updated_at := "T" }

/-- Defect 5 as returned by `changeStatus(5, "in_progress")` at time `"T"`. -/
def updatedDefect5 : Defect :=
  { defect5 with status := "in_progress", updated_at := "T" }

/-- Defect 2 as returned by `assign(2, 3)` with no due date at time `"T"`. -/
def assignedDefect2 : Defect :=
  { defect2 with
    assignee := some ⟨3, "Мария", "Электрикова"⟩,
    due_date := Option.none,
    days_remaining := Option.none,
    is_overdue := false,
    updated_at := "T" }

/-! ### Decidability of API results -/

instance : DecidableEq (Except String Defect) := fun a b =>
  match a, b with
  | .error x, .error y =>
    if h : x = y then isTrue (by rw [h]) else isFalse (by simp [h])
  | .ok x, .ok y =>
    if h : x = y then isTrue (by rw [h]) else isFalse (by simp [h])
  | .error _, .ok _ => isFalse (by simp)
  | .ok _, .error _ => isFalse (by simp)

/-! ### Helper lemmas about `updateFirst` -/

theorem updateFirst_eq_none (p : Defect → Bool) (f : Defect → Defect)
    (l : List Defect) :
    updateFirst p f l = none ↔ ∀ d ∈ l, p d = false := by
  induction l with
  | nil => simp [updateFirst]
  | cons d rest ih =>
    cases hpd : p d with
    | true => simp [updateFirst, hpd]
    | false =>
      cases hrest : updateFirst p f rest with
      | none =>
        simp only [updateFirst, hpd, Bool.false_eq_true, if_false, hrest]
        simp [hpd]
        exact ih.mp hrest
      | some pr => simp [updateFirst, hpd, hrest, ← ih]

theorem updateFirst_eq_some (p : Defect → Bool) (f : Defect → Defect) :
    ∀ (l st : List Defect) (u : Defect), updateFirst p f l = some (st, u) →
      ∃ l₁ d l₂, l = l₁ ++ d :: l₂ ∧ (∀ x ∈ l₁, p x = false) ∧ p d = true ∧
        u = f d ∧ st = l₁ ++ f d :: l₂ := by
  intro l
  induction l with
  | nil => intro st u h; simp [updateFirst] at h
  | cons d rest ih =>
    intro st u h
    cases hpd : p d with
    | true =>
      simp only [updateFirst, hpd, if_pos] at h
      obtain ⟨hst, hu⟩ := Prod.mk.injEq .. ▸ Option.some.injEq .. ▸ h
      exact ⟨[], d, rest, by simp, by simp, hpd, hu.symm, by simp [hst.symm]⟩
    | false =>
      simp only [updateFirst, hpd, Bool.false_eq_true, if_false] at h
      cases hrest : updateFirst p f rest with
      | none => rw [hrest] at h; exact absurd h (by simp)
      | some pr =>
        obtain ⟨st₀, u₀⟩ := pr
        rw [hrest] at h
        simp only [Option.some.injEq, Prod.mk.injEq] at h
        obtain ⟨l₁, d₀, l₂, hl, hl₁, hpd₀, hu₀, hst₀⟩ := ih st₀ u₀ hrest
        refine ⟨d :: l₁, d₀, l₂, by simp [hl], ?_, hpd₀, by rw [← h.2]; exact hu₀, ?_⟩
        · intro x hx
          rcases List.mem_cons.mp hx with hx | hx
          · rw [hx]; exact hpd
          · exact hl₁ x hx
        · rw [← h.1, hst₀]; simp

theorem updateFirst_isSome_of_mem (p : Defect → Bool) (f : Defect → Defect)
    (l : List Defect) (d : Defect) (hd : d ∈ l) (hp : p d = true) :
    (updateFirst p f l).isSome := by
  cases h : updateFirst p f l with
  | none => exact absurd hp (by simp [(updateFirst_eq_none p f l).mp h d hd])
  | some pr => simp

/-! ### Control-flow equations for the mock API operations -/

theorem changeStatus_of_updateFirst_none (state : List Defect) (id : Nat)
    (status now : String)
    (h : updateFirst (fun d => d.id == id)
      (fun d => { d with status := status, updated_at := now }) state = none) :
    changeStatus state id status now = (state, .error "Дефект не найден") := by
  unfold changeStatus; rw [h]

theorem changeStatus_of_updateFirst_some (state : List Defect) (id : Nat)
    (status now : String) (st : List Defect) (u : Defect)
    (h : updateFirst (fun d => d.id == id)
      (fun d => { d with status := status, updated_at := now }) state =
        some (st, u)) :
    changeStatus state id status now =
      if validStatuses.contains status then (st, .ok u)
      else (state, .error "Недопустимый статус") := by
  unfold changeStatus; rw [h]

theorem assign_of_absent_defect (getTime : String → Int) (nowMs : Int)
    (nowIso : String) (state : List Defect) (id assigneeId : Nat)
    (due_date : Option String)
    (h : state.all (fun d => !(d.id == id)) = true) :
    assign getTime nowMs nowIso state id assigneeId due_date =
      (state, .error "Дефект не найден") := by
  unfold assign; rw [if_pos h]

theorem assign_of_engineer_none (getTime : String → Int) (nowMs : Int)
    (nowIso : String) (state : List Defect) (id assigneeId : Nat)
    (due_date : Option String)
    (hall : ¬ state.all (fun d => !(d.id == id)) = true)
    (hf : mockEngineers.find? (fun e => e.id == assigneeId) = none) :
    assign getTime nowMs nowIso state id assigneeId due_date =
      (state, .error "Исполнитель не найден") := by
  unfold assign; rw [if_neg hall, hf]

theorem assign_of_engineer_some_updateFirst_none (getTime : String → Int)
    (nowMs : Int) (nowIso : String) (state : List Defect)
    (id assigneeId : Nat) (due_date : Option String) (a : Engineer)
    (hall : ¬ state.all (fun d => !(d.id == id)) = true)
    (hf : mockEngineers.find? (fun e => e.id == assigneeId) = some a)
    (hu : updateFirst (fun d => d.id == id)
      (assignUpdate a due_date (dueDerivation getTime nowMs due_date) nowIso)
      state = none) :
    assign getTime nowMs nowIso state id assigneeId due_date =
      (state, .error "Дефект не найден") := by
  simp only [assign, if_neg hall, hf, hu]

theorem assign_of_engineer_some_updateFirst_some (getTime : String → Int)
    (nowMs : Int) (nowIso : String) (state : List Defect)
    (id assigneeId : Nat) (due_date : Option String) (a : Engineer)
    (st : List Defect) (u : Defect)
    (hall : ¬ state.all (fun d => !(d.id == id)) = true)
    (hf : mockEngineers.find? (fun e => e.id == assigneeId) = some a)
    (hu : updateFirst (fun d => d.id == id)
      (assignUpdate a due_date (dueDerivation getTime nowMs due_date) nowIso)
      state = some (st, u)) :
    assign getTime nowMs nowIso state id assigneeId due_date = (st, .ok u) := by
  simp only [assign, if_neg hall, hf, hu]

/-! ### Characterization helpers -/

theorem changeStatus_ok_characterization (state : List Defect) (id : Nat)
    (status now : String) (d' : Defect)
    (h : (changeStatus state id status now).2 = .ok d') :
    ∃ d ∈ state, (d.id == id) = true ∧
      d' = { d with status := status, updated_at := now } := by
  cases hu : updateFirst (fun d => d.id == id)
      (fun d => { d with status := status, updated_at := now }) state with
  | none =>
    rw [changeStatus_of_updateFirst_none state id status now hu] at h
    exact Except.noConfusion h
  | some pr =>
    obtain ⟨st, u⟩ := pr
    rw [changeStatus_of_updateFirst_some state id status now st u hu] at h
    by_cases hv : validStatuses.contains status = true
    · rw [if_pos hv] at h
      have hud : u = d' :=
        Except.ok.inj (show (Except.ok u : Except String Defect) = Except.ok d' from h)
      obtain ⟨l₁, d, l₂, hl, _, hpd, hu', _⟩ :=
        updateFirst_eq_some _ _ state st u hu
      exact ⟨d, by simp [hl], hpd, by rw [← hud, hu']⟩
    · rw [if_neg hv] at h
      exact Except.noConfusion h

theorem changeStatus_error_characterization (state : List Defect) (id : Nat)
    (status now : String) (e : String)
    (h : (changeStatus state id status now).2 = .error e) :
    e = "Дефект не найден" ∨ e = "Недопустимый статус" := by
  cases hu : updateFirst (fun d => d.id == id)
      (fun d => { d with status := status, updated_at := now }) state with
  | none =>
    rw [changeStatus_of_updateFirst_none state id status now hu] at h
    exact Or.inl (Except.error.inj h).symm
  | some pr =>
    obtain ⟨st, u⟩ := pr
    rw [changeStatus_of_updateFirst_some state id status now st u hu] at h
    by_cases hv : validStatuses.contains status = true
    · rw [if_pos hv] at h
      exact Except.noConfusion h
    · rw [if_neg hv] at h
      exact Or.inr (Except.error.inj h).symm

theorem changeStatus_ok_of_found_valid (state : List Defect) (id : Nat)
    (status now : String)
    (hmem : ∃ d ∈ state, (d.id == id) = true)
    (hv : validStatuses.contains status = true) :
    ∃ d', (changeStatus state id status now).2 = .ok d' := by
  obtain ⟨d, hd, hpd⟩ := hmem
  have hsome := updateFirst_isSome_of_mem (fun x => x.id == id)
    (fun x => { x with status := status, updated_at := now }) state d hd hpd
  cases hu : updateFirst (fun x => x.id == id)
      (fun x => { x with status := status, updated_at := now }) state with
  | none => rw [hu] at hsome; simp at hsome
  | some pr =>
    obtain ⟨st, u⟩ := pr
    rw [changeStatus_of_updateFirst_some state id status now st u hu, if_pos hv]
    exact ⟨u, rfl⟩

theorem assign_ok_characterization (getTime : String → Int) (nowMs : Int)
    (nowIso : String) (state : List Defect) (id assigneeId : Nat)
    (due_date : Option String) (d' : Defect)
    (h : (assign getTime nowMs nowIso state id assigneeId due_date).2 = .ok d') :
    ∃ d ∈ state, (d.id == id) = true ∧ ∃ a ∈ mockEngineers,
      d' = assignUpdate a due_date (dueDerivation getTime nowMs due_date)
        nowIso d := by
  by_cases hall : state.all (fun d => !(d.id == id)) = true
  · rw [assign_of_absent_defect getTime nowMs nowIso state id assigneeId
      due_date hall] at h
    exact Except.noConfusion h
  · cases hf : mockEngineers.find? (fun e => e.id == assigneeId) with
    | none =>
      rw [assign_of_engineer_none getTime nowMs nowIso state id assigneeId
        due_date hall hf] at h
      exact Except.noConfusion h
    | some a =>
      cases hu : updateFirst (fun d => d.id == id)
          (assignUpdate a due_date (dueDerivation getTime nowMs due_date)
            nowIso) state with
      | none =>
        rw [assign_of_engineer_some_updateFirst_none getTime nowMs nowIso
          state id assigneeId due_date a hall hf hu] at h
        exact Except.noConfusion h
      | some pr =>
        obtain ⟨st, u⟩ := pr
        rw [assign_of_engineer_some_updateFirst_some getTime nowMs nowIso
          state id assigneeId due_date a st u hall hf hu] at h
        have hud : u = d' :=
          Except.ok.inj (show (Except.ok u : Except String Defect) = Except.ok d' from h)
        obtain ⟨l₁, d, l₂, hl, _, hpd, hu', _⟩ :=
          updateFirst_eq_some _ _ state st u hu
        exact ⟨d, by simp [hl], hpd, a, List.mem_of_find?_eq_some hf,
          by rw [← hud, hu']⟩

theorem assign_error_characterization (getTime : String → Int) (nowMs : Int)
    (nowIso : String) (state : List Defect) (id assigneeId : Nat)
    (due_date : Option String) (e : String)
    (h : (assign getTime nowMs nowIso state id assigneeId due_date).2 =
      .error e) :
    e = "Дефект не найден" ∨ e = "Исполнитель не найден" := by
  by_cases hall : state.all (fun d => !(d.id == id)) = true
  · rw [assign_of_absent_defect getTime nowMs nowIso state id assigneeId
      due_date hall] at h
    exact Or.inl (Except.error.inj h).symm
  · cases hf : mockEngineers.find? (fun e => e.id == assigneeId) with
    | none =>
      rw [assign_of_engineer_none getTime nowMs nowIso state id assigneeId
        due_date hall hf] at h
      exact Or.inr (Except.error.inj h).symm
    | some a =>
      cases hu : updateFirst (fun d => d.id == id)
          (assignUpdate a due_date (dueDerivation getTime nowMs due_date)
            nowIso) state with
      | none =>
        rw [assign_of_engineer_some_updateFirst_none getTime nowMs nowIso
          state id assigneeId due_date a hall hf hu] at h
        exact Or.inl (Except.error.inj h).symm
      | some pr =>
        obtain ⟨st, u⟩ := pr
        rw [assign_of_engineer_some_updateFirst_some getTime nowMs nowIso
          state id assigneeId due_date a st u hall hf hu] at h
        exact Except.noConfusion h

theorem jsCeilDiv_bounds (a b : Int) (hb : 0 < b) :
    b * (jsCeilDiv a b - 1) < a ∧ a ≤ b * jsCeilDiv a b := by
  have hf : Int.fdiv (-a) b = (-a) / b := Int.fdiv_eq_ediv (-a) (le_of_lt hb)
  have h1 : b * ((-a) / b) + (-a) % b = -a := Int.ediv_add_emod (-a) b
  have h2 : 0 ≤ (-a) % b := Int.emod_nonneg (-a) (by omega)
  have h3 : (-a) % b < b := Int.emod_lt_of_pos (-a) hb
  unfold jsCeilDiv
  rw [hf]
  constructor <;> nlinarith [h1, h2, h3]

/-! ### Claim theorems -/

/-- C7: every status-change or assignment call that fails with an error leaves
the stored defect list — and with it every defect's status, assignee, due date
and all other fields — completely unchanged; since the store holds nothing but
the defect list, no partial mutation is observable on failure. -/
theorem failed_call_leaves_state_unchanged
    (getTime : String → Int) (nowMs : Int) (nowIso now : String)
    (state : List Defect) (id assigneeId : Nat) (status : String)
    (due_date : Option String) :
    ((changeStatus state id status now).2.isOk = false →
      (changeStatus state id status now).1 = state) ∧
    ((assign getTime nowMs nowIso state id assigneeId due_date).2.isOk = false →
      (assign getTime nowMs nowIso state id assigneeId due_date).1 = state) := by
  constructor
  · intro h
    cases hu : updateFirst (fun d => d.id == id)
        (fun d => { d with status := status, updated_at := now }) state with
    | none => rw [changeStatus_of_updateFirst_none state id status now hu]
    | some pr =>
      obtain ⟨st, u⟩ := pr
      rw [changeStatus_of_updateFirst_some state id status now st u hu] at h ⊢
      by_cases hv : validStatuses.contains status = true
      · rw [if_pos hv] at h; simp [Except.isOk, Except.toBool] at h
      · rw [if_neg hv]
  · intro h
    by_cases hall : state.all (fun d => !(d.id == id)) = true
    · rw [assign_of_absent_defect getTime nowMs nowIso state id assigneeId
        due_date hall]
    · cases hf : mockEngineers.find? (fun e => e.id == assigneeId) with
      | none =>
        rw [assign_of_engineer_none getTime nowMs nowIso state id assigneeId
          due_date hall hf]
      | some a =>
        cases hu : updateFirst (fun d => d.id == id)
            (assignUpdate a due_date (dueDerivation getTime nowMs due_date)
              nowIso) state with
        | none =>
          rw [assign_of_engineer_some_updateFirst_none getTime nowMs nowIso
            state id assigneeId due_date a hall hf hu]
        | some pr =>
          obtain ⟨st, u⟩ := pr
          rw [assign_of_engineer_some_updateFirst_some getTime nowMs nowIso
            state id assigneeId due_date a st u hall hf hu] at h
          simp [Except.isOk, Except.toBool] at h

/-- C9 (confirmed): a successful `changeStatus` preserves every field of the
defect record other than `status` and `updated_at`: id, defect_number, title,
description, priority, severity, project, category, author, assignee,
location, floor, room, due_date, is_overdue, days_remaining, main_image,
comments_count and created_at are returned unchanged, while `status` becomes
the requested status and `updated_at` the current time. -/
theorem successful_status_change_preserves_other_fields
    (state : List Defect) (id : Nat) (status now : String) (d' : Defect)
    (h : (changeStatus state id status now).2 = .ok d') :
    ∃ d ∈ state, d.id = id ∧
      d'.id = d.id ∧ d'.defect_number = d.defect_number ∧ d'.title = d.title ∧
      d'.description = d.description ∧ d'.priority = d.priority ∧
      d'.severity = d.severity ∧ d'.project = d.project ∧
      d'.category = d.category ∧ d'.author = d.author ∧
      d'.assignee = d.assignee ∧ d'.location = d.location ∧
      d'.floor = d.floor ∧ d'.room = d.room ∧ d'.due_date = d.due_date ∧
      d'.is_overdue = d.is_overdue ∧ d'.days_remaining = d.days_remaining ∧
      d'.main_image = d.main_image ∧ d'.comments_count = d.comments_count ∧
      d'.created_at = d.created_at ∧
      d'.status = status ∧ d'.updated_at = now := by
  cases hu : updateFirst (fun d => d.id == id)
      (fun d => { d with status := status, updated_at := now }) state with
  | none => rw [changeStatus_of_updateFirst_none state id status now hu] at h; simp at h
  | some pr =>
    obtain ⟨st, u⟩ := pr
    rw [changeStatus_of_updateFirst_some state id status now st u hu] at h
    by_cases hv : validStatuses.contains status = true
    · rw [if_pos hv] at h
      obtain ⟨l₁, d, l₂, hl, _, hpd, hu', _⟩ :=
        updateFirst_eq_some _ _ state st u hu
      have hid : d.id = id := by simpa using hpd
      have hd' : d' = { d with status := status, updated_at := now } := by
        rw [← hu']
        have hok : (Except.ok u : Except String Defect) = Except.ok d' := h
        exact (Except.ok.inj hok).symm
      subst hd'
      exact ⟨d, by simp [hl], hid, rfl, rfl, rfl, rfl, rfl, rfl, rfl, rfl,
        rfl, rfl, rfl, rfl, rfl, rfl, rfl, rfl, rfl, rfl, rfl, rfl, rfl⟩
    · rw [if_neg hv] at h; simp at h

/-- C6 counterexample: an accepted status transition produces no transition
history record at all, rather than exactly one: the complete output of the
accepted `new → in_progress` change on defect 8 is the updated store plus the
updated defect — no record of (defect id, from_status, to_status, actor,
timestamp, comment) appears anywhere in it. -/
theorem accepted_transition_produces_no_record :
    changeStatus mockDefects 8 "in_progress" "T" =
      ([defect1, defect2, defect3, defect4, defect5, defect6, defect7,
        { defect8 with status := "in_progress", updated_at := "T" }],
       .ok { defect8 with status := "in_progress", updated_at := "T" }) := by
  decide

/-- C6 (amended behavior of the code): an accepted status change produces only
the updated defect: the complete output of `changeStatus` is the stored list
with the first id-matching defect overwritten in place, plus that same updated
defect as return value.  No transition history record exists anywhere in the
output (nor anywhere in the code), so the claimed `historyRecord` is absent. -/
theorem accepted_transition_updates_single_defect
    (state : List Defect) (id : Nat) (status now : String)
    (st' : List Defect) (d' : Defect)
    (h : changeStatus state id status now = (st', .ok d')) :
    ∃ l₁ d l₂, state = l₁ ++ d :: l₂ ∧ (∀ x ∈ l₁, (x.id == id) = false) ∧
      d.id = id ∧ d' = { d with status := status, updated_at := now } ∧
      st' = l₁ ++ d' :: l₂ := by
  cases hu : updateFirst (fun d => d.id == id)
      (fun d => { d with status := status, updated_at := now }) state with
  | none => rw [changeStatus_of_updateFirst_none state id status now hu] at h; simp at h
  | some pr =>
    obtain ⟨st, u⟩ := pr
    rw [changeStatus_of_updateFirst_some state id status now st u hu] at h
    by_cases hv : validStatuses.contains status = true
    · rw [if_pos hv] at h
      have hst : st = st' := congrArg Prod.fst h
      have hud : u = d' :=
        Except.ok.inj (show (Except.ok u : Except String Defect) = Except.ok d' from
          congrArg Prod.snd h)
      obtain ⟨l₁, d, l₂, hl, hl₁, hpd, hu', hst₀⟩ :=
        updateFirst_eq_some _ _ state st u hu
      refine ⟨l₁, d, l₂, hl, hl₁, by simpa using hpd, ?_, ?_⟩
      · rw [← hud, hu']
      · rw [← hst, hst₀, ← hud, hu']
    · rw [if_neg hv] at h; simp at h

/-- C1 counterexample: the transition-availability function used by the
status-change dialog, `getValidNextStatuses`, does not return the §4.1
structural table: `review → cancelled` is structurally allowed but missing
from its `review` row, and `closed → in_progress` (reopen) is structurally
allowed but its `closed` row is empty — so for the manager role it does not
give every structurally allowed transition, contrary to the claim. -/
theorem dialog_table_omits_structural_transitions :
    specStructural "review" "cancelled" = true ∧
    (getValidNextStatuses "review").contains "cancelled" = false ∧
    specStructural "closed" "in_progress" = true ∧
    getValidNextStatuses "closed" = [] := by decide

/-- C1 as amended: `getAvailableTransitions` of `DefectWorkflow.tsx` returns,
for every pair of statuses and every role, exactly the §4.1 structural table
intersected with the role overlay (manager everything, engineer only
`new → in_progress` and `in_progress → review`, observer nothing); the
role-independent `getValidNextStatuses` of the status-change dialog instead
returns, for every caller, the manager row minus `review → cancelled` and
minus every transition out of `closed`. -/
theorem transition_tables_vs_spec_tables :
    (∀ f ∈ validStatuses, ∀ t ∈ validStatuses, ∀ r ∈ allRoles,
      (getAvailableTransitions f (some r)).contains t = specIsAllowed f t r) ∧
    (∀ f ∈ validStatuses, ∀ t ∈ validStatuses,
      (getValidNextStatuses f).contains t =
        (specIsAllowed f t "manager" &&
         !(decide (f = "review") && decide (t = "cancelled")) &&
         !(decide (f = "closed")))) := by
  constructor <;> decide

/-- Witness for the C1 theorem at concrete inputs. -/
theorem transition_tables_vs_spec_tables_witness :
    (getAvailableTransitions "review" (some "engineer")).contains "closed" =
      specIsAllowed "review" "closed" "engineer" ∧
    (getValidNextStatuses "closed").contains "in_progress" =
      (specIsAllowed "closed" "in_progress" "manager" &&
       !(decide (("closed" : String) = "review") &&
         decide (("in_progress" : String) = "cancelled")) &&
       !(decide (("closed" : String) = "closed"))) :=
  ⟨transition_tables_vs_spec_tables.1 "review" (by decide) "closed" (by decide)
      "engineer" (by decide),
   transition_tables_vs_spec_tables.2 "closed" (by decide) "in_progress"
      (by decide)⟩

/-- C2 counterexample: a status-change request whose requested status equals
the defect's current status is not rejected by the API: defect 1 is in status
`new` and `changeStatus(1, "new")` succeeds, returning the defect with only
`updated_at` touched — there is no `InvalidTransitionError`. -/
theorem api_accepts_noop_status_change :
    defect1.status = "new" ∧
    (changeStatus mockDefects 1 "new" "T").2 =
      .ok { defect1 with status := "new", updated_at := "T" } := by decide

/-- C2 as amended: the no-op rejection exists only in the status-change
dialog: `handleSubmit` refuses to dispatch when the selected status equals the
defect's current status, reporting the message string (not a typed error) and
leaving the store untouched; the API `changeStatus` itself accepts a request
equal to the current status and rewrites the defect with only `updated_at`
changed. -/
theorem noop_rejected_in_dialog_accepted_by_api :
    (∀ (d : Defect) (comment : String), d.status ≠ "" →
      handleSubmit (some d) d.status comment =
        SubmitAction.reject "Выберите новый статус") ∧
    changeStatus mockDefects 1 "new" "T" =
      ([{ defect1 with updated_at := "T" }, defect2, defect3, defect4, defect5,
        defect6, defect7, defect8], .ok { defect1 with updated_at := "T" }) := by
  refine ⟨?_, by decide⟩
  intro d comment hne
  simp [handleSubmit, hne]

/-- Witness for the C2 theorem at a concrete input. -/
theorem noop_rejected_in_dialog_accepted_by_api_witness :
    handleSubmit (some defect1) defect1.status "" =
      SubmitAction.reject "Выберите новый статус" :=
  noop_rejected_in_dialog_accepted_by_api.1 defect1 "" (by decide)

/-- C3 counterexample: `assign` takes no role at all, so a call made by a
non-manager does not fail with a forbidden-role error: the UI permission
`canAssign` is false for engineer and observer, yet the assign operation their
session would dispatch succeeds unchanged. -/
theorem assign_succeeds_for_any_caller_role :
    canAssign (some "engineer") = false ∧
    canAssign (some "observer") = false ∧
    (assign (fun _ => 0) 0 "T" mockDefects 1 2 Option.none).2.isOk = true := by
  decide

/-- C3 as amended: the manager-only restriction on assignment exists solely as
UI gating — `canAssign` is true exactly for a logged-in manager — while the
assign API itself has no role input and never fails for role reasons; an
`assigneeId` that resolves to no known engineer fails with the
assignee-not-found message; and a successful assign leaves `status`
unchanged. -/
theorem assign_role_gating_and_result
    (getTime : String → Int) (nowMs : Int) (nowIso : String)
    (state : List Defect) (id assigneeId : Nat) (due_date : Option String) :
    (∀ r, canAssign (some r) = true ↔ r = "manager") ∧
    canAssign Option.none = false ∧
    ((∃ d ∈ state, d.id = id) → (∀ a ∈ mockEngineers, a.id ≠ assigneeId) →
      (assign getTime nowMs nowIso state id assigneeId due_date).2 =
        .error "Исполнитель не найден") ∧
    (∀ d', (assign getTime nowMs nowIso state id assigneeId due_date).2 =
        .ok d' →
      ∃ d ∈ state, d.id = id ∧ d'.status = d.status) := by
  refine ⟨?_, rfl, ?_, ?_⟩
  · intro r
    simp [canAssign, hasRole]
  · rintro ⟨d, hd, hid⟩ hmiss
    have hall : ¬ state.all (fun x => !(x.id == id)) = true := by
      intro hall
      have := List.all_eq_true.mp hall d hd
      simp [hid] at this
    have hf : mockEngineers.find? (fun a => a.id == assigneeId) = none := by
      apply List.find?_eq_none.mpr
      intro a ha
      simp [hmiss a ha]
    exact congrArg Prod.snd (assign_of_engineer_none getTime nowMs nowIso
      state id assigneeId due_date hall hf)
  · intro d' h
    obtain ⟨d, hd, hpd, a, _, hup⟩ := assign_ok_characterization getTime
      nowMs nowIso state id assigneeId due_date d' h
    exact ⟨d, hd, by simpa using hpd, by rw [hup]; rfl⟩

/-- Witness for the C3 theorem at concrete inputs. -/
theorem assign_role_gating_and_result_witness :
    (canAssign (some "manager") = true ↔ ("manager" : String) = "manager") ∧
    (assign (fun _ => 0) 0 "T" mockDefects 1 1 Option.none).2 =
      .error "Исполнитель не найден" :=
  ⟨(assign_role_gating_and_result (fun _ => 0) 0 "T" mockDefects 1 1
      Option.none).1 "manager",
   (assign_role_gating_and_result (fun _ => 0) 0 "T" mockDefects 1 1
      Option.none).2.2.1 ⟨defect1, by decide, rfl⟩ (by decide)⟩

/-- C4 counterexample: defect records carry no version counter and the status
change takes no expected version: the complete result of a successful
`changeStatus` call is the input store and defect with only `status` and
`updated_at` replaced — nothing is incremented and no concurrency check
exists. -/
theorem status_change_increments_no_counter :
    changeStatus mockDefects 1 "in_progress" "T" =
      ([{ defect1 with status := "in_progress", updated_at := "T" }, defect2,
        defect3, defect4, defect5, defect6, defect7, defect8],
       .ok { defect1 with status := "in_progress", updated_at := "T" }) := by
  decide

/-- C4 as amended: the `Defect` record has no version field and the API has no
expected-version input; a successful `changeStatus` returns a stored defect
with only `status` and `updated_at` replaced, a successful `assign` returns it
with only `assignee`, `due_date`, `days_remaining`, `is_overdue` and
`updated_at` replaced, and the only rejections are the untyped not-found /
invalid-status / assignee-not-found messages — no concurrent-modification
rejection exists. -/
theorem no_version_counter_in_api
    (getTime : String → Int) (nowMs : Int) (nowIso now : String)
    (state : List Defect) (id assigneeId : Nat) (status : String)
    (due_date : Option String) :
    (∀ d', (changeStatus state id status now).2 = .ok d' →
      ∃ d ∈ state, d' = { d with status := status, updated_at := now }) ∧
    (∀ d', (assign getTime nowMs nowIso state id assigneeId due_date).2 =
        .ok d' →
      ∃ d ∈ state, ∃ a ∈ mockEngineers,
        d' = assignUpdate a due_date (dueDerivation getTime nowMs due_date)
          nowIso d) ∧
    (∀ e, (changeStatus state id status now).2 = .error e →
      e = "Дефект не найден" ∨ e = "Недопустимый статус") ∧
    (∀ e, (assign getTime nowMs nowIso state id assigneeId due_date).2 =
        .error e →
      e = "Дефект не найден" ∨ e = "Исполнитель не найден") := by
  refine ⟨?_, ?_, ?_, ?_⟩
  · intro d' h
    obtain ⟨d, hd, _, he⟩ :=
      changeStatus_ok_characterization state id status now d' h
    exact ⟨d, hd, he⟩
  · intro d' h
    obtain ⟨d, hd, _, a, ha, he⟩ := assign_ok_characterization getTime nowMs
      nowIso state id assigneeId due_date d' h
    exact ⟨d, hd, a, ha, he⟩
  · exact changeStatus_error_characterization state id status now
  · exact assign_error_characterization getTime nowMs nowIso state id
      assigneeId due_date

/-- Witness for the C4 theorem at a concrete failing input. -/
theorem no_version_counter_in_api_witness :
    ("Дефект не найден" : String) = "Дефект не найден" ∨
    ("Дефект не найден" : String) = "Недопустимый статус" :=
  (no_version_counter_in_api (fun _ => 0) 0 "T" "T" mockDefects 999 2 "new"
    Option.none).2.2.1 "Дефект не найден" rfl

/-- C5 counterexample: the DefectWorkflow overdue indicator contradicts the
claimed formula on a same-day past due date: with the due instant half a day
before now, `days_remaining = ceil(-0.5) = 0`, so the claim says "not
overdue", yet `isOverdueView` (which computes `due < now` directly) reports
defect 2 as overdue. -/
theorem workflow_view_overdue_on_same_day :
    defect2.due_date = some "2024-09-10" ∧
    jsCeilDiv ((0 : Int) - 43200000) msPerDay = 0 ∧
    isOverdueView (fun _ => 0) 43200000 defect2 = true := by decide

/-- C5 as amended: the assignment-path overdue computation satisfies the
claimed formula — no due date gives `days_remaining = null` and
`is_overdue = false`; otherwise `days_remaining` is the ceiling of
`(dueDate - now) / 1 day` (the bracketing inequalities characterize
`jsCeilDiv` as the real ceiling, and a same-day past due date yields `0`) and
`is_overdue` holds exactly when `days_remaining < 0` — but the DefectWorkflow
overdue indicator instead reports overdue exactly when the due instant is
strictly before now, so a same-day past due date is overdue there. -/
theorem overdue_formula_and_view_divergence
    (getTime : String → Int) (nowMs : Int) (nowIso : String)
    (state : List Defect) (id assigneeId : Nat) :
    (∀ d', (assign getTime nowMs nowIso state id assigneeId Option.none).2 =
        .ok d' →
      d'.days_remaining = Option.none ∧ d'.is_overdue = false) ∧
    (∀ dd d', dd ≠ "" →
      (assign getTime nowMs nowIso state id assigneeId (some dd)).2 = .ok d' →
      d'.days_remaining = some (jsCeilDiv (getTime dd - nowMs) msPerDay) ∧
      (d'.is_overdue = true ↔ jsCeilDiv (getTime dd - nowMs) msPerDay < 0)) ∧
    (∀ a b : Int, 0 < b →
      b * (jsCeilDiv a b - 1) < a ∧ a ≤ b * jsCeilDiv a b) ∧
    (∀ a : Int, -msPerDay < a → a ≤ 0 → jsCeilDiv a msPerDay = 0) ∧
    (∀ (d : Defect) (dd : String), d.due_date = some dd → dd ≠ "" →
      (isOverdueView getTime nowMs d = true ↔ getTime dd < nowMs)) := by
  refine ⟨?_, ?_, jsCeilDiv_bounds, ?_, ?_⟩
  · intro d' h
    obtain ⟨d, _, _, a, _, hup⟩ := assign_ok_characterization getTime nowMs
      nowIso state id assigneeId Option.none d' h
    rw [hup]
    exact ⟨rfl, rfl⟩
  · intro dd d' hne h
    obtain ⟨d, _, _, a, _, hup⟩ := assign_ok_characterization getTime nowMs
      nowIso state id assigneeId (some dd) d' h
    have hdio : dueDerivation getTime nowMs (some dd) =
        (some (jsCeilDiv (getTime dd - nowMs) msPerDay),
         decide (jsCeilDiv (getTime dd - nowMs) msPerDay < 0)) := by
      simp [dueDerivation, hne]
    rw [hup]
    constructor
    · show (dueDerivation getTime nowMs (some dd)).1 = _
      rw [hdio]
    · show ((dueDerivation getTime nowMs (some dd)).2 = true) ↔ _
      rw [hdio]
      simp
  · intro a hlow hhigh
    have hb := jsCeilDiv_bounds a msPerDay (by norm_num [msPerDay])
    have h1 := hb.1
    have h2 := hb.2
    have hm : msPerDay = 86400000 := rfl
    rw [hm] at h1 h2 hlow ⊢
    omega
  · intro d dd hdd hne
    simp [isOverdueView, hdd, hne]

/-- Witness for the C5 theorem at concrete inputs. -/
theorem overdue_formula_and_view_divergence_witness :
    (isOverdueView (fun _ => 0) 43200000 defect2 = true ↔
      (0 : Int) < 43200000) ∧
    jsCeilDiv (-43200000) msPerDay = 0 :=
  ⟨(overdue_formula_and_view_divergence (fun _ => 0) 43200000 "T" mockDefects
      2 3).2.2.2.2 defect2 "2024-09-10" rfl (by decide),
   (overdue_formula_and_view_divergence (fun _ => 0) 43200000 "T" mockDefects
      2 3).2.2.2.1 (-43200000) (by decide) (by decide)⟩

/-- C8 counterexample: a transition that is structurally impossible for any
role is not rejected with any error: defect 1 is in status `new`, `new →
closed` is outside the structural table, yet `changeStatus(1, "closed")`
succeeds for whoever calls it. -/
theorem impossible_transition_accepted :
    defect1.status = "new" ∧ specStructural "new" "closed" = false ∧
    (changeStatus mockDefects 1 "closed" "T").2.isOk = true := by decide

/-- C8 as amended: every rejection of the mock API is one of the untyped
message strings — not-found or invalid-status for `changeStatus`, not-found
or assignee-not-found for `assign` — and no invalid-transition /
forbidden-role distinction exists: whenever the defect exists and the
requested status string is one of the five valid statuses, `changeStatus`
succeeds regardless of the current status or of any role. -/
theorem error_kinds_and_missing_checks
    (getTime : String → Int) (nowMs : Int) (nowIso now : String)
    (state : List Defect) (id assigneeId : Nat) (status : String)
    (due_date : Option String) :
    (∀ e, (changeStatus state id status now).2 = .error e →
      e ∈ ["Дефект не найден", "Недопустимый статус"]) ∧
    (∀ e, (assign getTime nowMs nowIso state id assigneeId due_date).2 =
        .error e →
      e ∈ ["Дефект не найден", "Исполнитель не найден"]) ∧
    ((∃ d ∈ state, d.id = id) → validStatuses.contains status = true →
      ∃ d', (changeStatus state id status now).2 = .ok d') := by
  refine ⟨?_, ?_, ?_⟩
  · intro e h
    rcases changeStatus_error_characterization state id status now e h with
      h1 | h1 <;> simp [h1]
  · intro e h
    rcases assign_error_characterization getTime nowMs nowIso state id
      assigneeId due_date e h with h1 | h1 <;> simp [h1]
  · rintro ⟨d, hd, hid⟩ hv
    exact changeStatus_ok_of_found_valid state id status now
      ⟨d, hd, by simp [hid]⟩ hv

/-- Witness for the C8 theorem at a concrete input: the structurally
impossible `new → closed` request on defect 1 succeeds. -/
theorem error_kinds_and_missing_checks_witness :
    ∃ d', (changeStatus mockDefects 1 "closed" "T").2 = .ok d' :=
  (error_kinds_and_missing_checks (fun _ => 0) 0 "T" "T" mockDefects 1 2
    "closed" Option.none).2.2 ⟨defect1, by decide, rfl⟩ (by decide)

/-- C10 (confirmed): a successful assign call that omits the due date
overwrites `due_date` and `days_remaining` with the absent value and resets
`is_overdue` to false — any previously set deadline and overdue state are
cleared. -/
theorem assign_without_due_date_clears_deadline
    (getTime : String → Int) (nowMs : Int) (nowIso : String)
    (state : List Defect) (id assigneeId : Nat) (d' : Defect)
    (h : (assign getTime nowMs nowIso state id assigneeId Option.none).2 =
      .ok d') :
    d'.due_date = Option.none ∧ d'.days_remaining = Option.none ∧
      d'.is_overdue = false := by
  obtain ⟨d, _, _, a, _, hup⟩ := assign_ok_characterization getTime nowMs
    nowIso state id assigneeId Option.none d' h
  rw [hup]
  exact ⟨rfl, rfl, rfl⟩

/-- Witness for the C10 theorem: assigning engineer 3 to defect 2 (which had
due date `2024-09-10` and was overdue) without a due date clears deadline and
overdue state. -/
theorem assign_without_due_date_clears_deadline_witness :
    assignedDefect2.due_date = Option.none ∧
    assignedDefect2.days_remaining = Option.none ∧
    assignedDefect2.is_overdue = false :=
  assign_without_due_date_clears_deadline (fun _ => 0) 0 "T" mockDefects 2 3
    assignedDefect2 rfl

/-- Witness for the C6 theorem: the accepted `new → in_progress` transition on
defect 5 replaces exactly that defect in the store and returns it; the output
contains no history record. -/
theorem accepted_transition_updates_single_defect_witness :
    ∃ l₁ d l₂, mockDefects = l₁ ++ d :: l₂ ∧
      (∀ x ∈ l₁, (x.id == 5) = false) ∧ d.id = 5 ∧
      updatedDefect5 = { d with status := "in_progress", updated_at := "T" } ∧
      [defect1, defect2, defect3, defect4, updatedDefect5, defect6, defect7,
        defect8] = l₁ ++ updatedDefect5 :: l₂ :=
  accepted_transition_updates_single_defect mockDefects 5 "in_progress" "T"
    [defect1, defect2, defect3, defect4, updatedDefect5, defect6, defect7,
      defect8] updatedDefect5 rfl

/-- Witness for the C7 theorem: a `changeStatus` on an unknown defect id and
an `assign` with an unknown assignee both fail and leave the stored list
untouched. -/
theorem failed_call_leaves_state_unchanged_witness :
    (changeStatus mockDefects 999 "closed" "T").1 = mockDefects ∧
    (assign (fun _ => 0) 0 "T" mockDefects 1 99 Option.none).1 = mockDefects :=
  ⟨(failed_call_leaves_state_unchanged (fun _ => 0) 0 "T" "T" mockDefects 999
      99 "closed" Option.none).1 rfl,
   (failed_call_leaves_state_unchanged (fun _ => 0) 0 "T" "T" mockDefects 1
      99 "closed" Option.none).2 rfl⟩

/-- Witness for the C9 theorem: changing defect 1 to `in_progress` preserves
every field except `status` and `updated_at`. -/
theorem successful_status_change_preserves_other_fields_witness :
    ∃ d ∈ mockDefects, d.id = 1 ∧
      updatedDefect1.id = d.id ∧
      updatedDefect1.defect_number = d.defect_number ∧
      updatedDefect1.title = d.title ∧
      updatedDefect1.description = d.description ∧
      updatedDefect1.priority = d.priority ∧
      updatedDefect1.severity = d.severity ∧
      updatedDefect1.project = d.project ∧
      updatedDefect1.category = d.category ∧
      updatedDefect1.author = d.author ∧
      updatedDefect1.assignee = d.assignee ∧
      updatedDefect1.location = d.location ∧
      updatedDefect1.floor = d.floor ∧
      updatedDefect1.room = d.room ∧
      updatedDefect1.due_date = d.due_date ∧
      updatedDefect1.is_overdue = d.is_overdue ∧
      updatedDefect1.days_remaining = d.days_remaining ∧
      updatedDefect1.main_image = d.main_image ∧
      updatedDefect1.comments_count = d.comments_count ∧
      updatedDefect1.created_at = d.created_at ∧
      updatedDefect1.status = "in_progress" ∧ updatedDefect1.updated_at = "T" :=
  successful_status_change_preserves_other_fields mockDefects 1 "in_progress"
    "T" updatedDefect1 rfl

end DefectSystem
